import Mathlib

/-!
Verification of the StreetViewScraper pipeline (src/StreetViewScraper.py).

The Python module is shallowly embedded as follows.

* Values parsed from the provider's JSON metadata responses are modelled by
  the inductive type `Json` (a parsed JSON document as `json.loads` produces
  it; `Json.null` is Python `None`).  A transport-level failure of
  `urllib.request.urlopen`/`json.loads` is modelled by `Option.none` at the
  input of `MetaParse`: the function receives `some body` when a body was
  parsed and `none` when any exception occurred before parsing finished.
* Latitude/longitude and other coordinates are only ever moved around by the
  code (never used arithmetically), so they are carried as `Json` values
  (normally `Json.num`); numeric literals use `Int`.
* Module-level globals (`key`, `scrape_type`, `samples_per_country`, `pano`,
  `num_workers`) are modelled as an ambient `Config` record passed to every
  function, mirroring the Python functions' access to the module globals.
* The network is modelled by a `Provider` oracle giving, per request URL and
  per attempt index, the parsed metadata body and the outcome of the image
  download (`ok`, an `urllib.error.HTTPError`, or any other exception).
* `pandas.DataFrame.sample(n=...)` (selection of `n` rows without
  replacement, uniformly at random) is modelled by a `Sampler` oracle; the
  predicate `ValidSampler` states exactly the properties every draw of the
  random generator has: the selection has `n` elements and is a
  sub-multiset of the data (selection without replacement).  Uniformity of
  the distribution itself is a probabilistic statement outside the shallow
  embedding; every theorem below holds for every draw.
* `time.sleep(5)` is modelled by a counter of sleep events (real durations
  are outside the embedding), and writing an image file by appending the
  pair (directory, filename) to a list of performed writes
  (`os.path.join` is kept abstract as that pair).
* The thread pool of `download_images_from_country` is modelled by a
  sequential fold over the submitted points: every theorem proved about the
  driver concerns the tallied success count, the number of file writes and
  the ledger contents, all of which are independent of the completion order
  of the futures (each future contributes its flag and metadata exactly
  once, and `as_completed` yields each future exactly once).
-/

namespace StreetView

/-- A parsed JSON document as `json.loads` returns it (`null` is Python
`None`, objects keep their key order). -/
inductive Json where
  | null : Json
  | bool : Bool → Json
  | num : Int → Json
  | str : String → Json
  | arr : List Json → Json
  | obj : List (String × Json) → Json

/-- Python truthiness of a parsed JSON value (`if x:`). -/
def truthy : Json → Bool
  | Json.null => false
  | Json.bool b => b
  | Json.num n => decide (n ≠ 0)
  | Json.str s => decide (s ≠ "")
  | Json.arr xs => !xs.isEmpty
  | Json.obj kvs => !kvs.isEmpty

/-- Python subscription `j[k]` on a parsed JSON value: `none` models the
exception raised when `j` is not a dict or the key is missing. -/
def pyGet : Json → String → Option Json
  | Json.obj kvs, k => (kvs.find? (fun p => p.1 == k)).map (fun p => p.2)
  | _, _ => none

/-- Python comparison `v == "OK"` on a parsed JSON value: true exactly for
the string `"OK"` (Python equality between a string and a non-string parsed
JSON value is `False`). -/
def isOkStatus : Json → Bool
  | Json.str s => s == "OK"
  | _ => false

/-- Python `f"{v}"` on a parsed JSON value.  Coordinates in metadata
responses are atoms (numbers in practice); container values are summarised,
as no claim formats a container into a filename. -/
def pyStr : Json → String
  | Json.null => "None"
  | Json.bool true => "True"
  | Json.bool false => "False"
  | Json.num n => toString n
  | Json.str s => s
  | Json.arr _ => "<list>"
  | Json.obj _ => "<dict>"

/-- Embedding of `MetaParse` (src/StreetViewScraper.py lines 119-143).  The
argument is the result of fetching and parsing `MetaUrl` (`none` = the
request or `json.loads` raised).  Inside the `try`, `jsonData['status']`,
`jsonData['pano_id']`, `jsonData['location']['lat']` and `...['lng']` raise
(and are caught, giving `None`) when missing, while `jsonData.get('date',
None)` never raises.  The function itself never lets an exception escape:
the embedding is a total function into `Option`. -/
def MetaParse : Option Json → Option (Json × Json × Json × Json)
  | none => none
  | some j =>
    match pyGet j "status" with
    | none => none
    | some st =>
      if isOkStatus st then
        match pyGet j "pano_id" with
        | none => none
        | some pid =>
          match pyGet j "location" with
          | none => none
          | some loc =>
            match pyGet loc "lat" with
            | none => none
            | some la =>
              match pyGet loc "lng" with
              | none => none
              | some ln => some ((pyGet j "date").getD Json.null, pid, la, ln)
      else none

/-- The module-level globals of src/StreetViewScraper.py (lines 15-19),
passed as an ambient record: `key` (an environment lookup, hence optional),
`scrape_type`, `samples_per_country`, `pano` and `num_workers`. -/
structure Config where
  key : Option String
  scrape_type : Nat
  samples_per_country : Nat
  pano : Bool
  num_workers : Nat

/-- Outcome of one `urllib.request.urlretrieve` call: success, an
`urllib.error.HTTPError`, or any other exception. -/
inductive DownloadOutcome where
  | ok : DownloadOutcome
  | httpError : DownloadOutcome
  | otherError : DownloadOutcome

/-- The remote provider as an oracle: per request URL and per attempt index
within one `GetStreetLL` call, the parsed metadata body (`none` = transport
failure or malformed body) and the download outcome. -/
structure Provider where
  metaResponse : String → Nat → Option Json
  download : String → Nat → DownloadOutcome

/-- The observable effects and return value of one `GetStreetLL` call:
the returned pair is (`metadata`, `flag`), `files` lists the performed
image writes as (directory, filename) pairs, `sleeps` counts the
`time.sleep(5)` calls, and `metaQueries` lists the URLs of the metadata
requests issued, in order. -/
structure FetchResult where
  metadata : Option (Json × Json × Json × Json × String)
  flag : Nat
  files : List (String × String)
  sleeps : Nat
  metaQueries : List String

/-- Python `f"{key}"` for the global `key` (which is `None` when the
environment variable is unset). -/
def optKeyStr : Option String → String
  | none => "None"
  | some s => s

/-- The shared URL tail `f"{Lat},{Lon}&heading={Head}&key={key}"` built by
`GetStreetLL` (line 164). -/
def urlEnd (cfg : Config) (Lat Lon Head : Int) : String :=
  toString Lat ++ "," ++ toString Lon ++ "&heading=" ++ toString Head ++
    "&key=" ++ optKeyStr cfg.key

/-- `MyUrl` of `GetStreetLL` (line 165): the image endpoint request. -/
def imageUrl (cfg : Config) (Lat Lon Head : Int) : String :=
  "https://maps.googleapis.com/maps/api/streetview" ++
    "?size=640x640&fov=120&location=" ++ urlEnd cfg Lat Lon Head

/-- `MetaUrl` of `GetStreetLL` (line 166): the metadata endpoint request. -/
def metaUrl (cfg : Config) (Lat Lon Head : Int) : String :=
  "https://maps.googleapis.com/maps/api/streetview" ++ "/metadata" ++
    "?size=640x640&fov=120&location=" ++ urlEnd cfg Lat Lon Head

/-- The filename `f"{lat}_{lon}_{int(Head)}.jpg"` of line 176, built from
the validated coordinates `la`, `ln` and the requested heading (`int()` on
the integer heading is the identity). -/
def fileNameFor (la ln : Json) (Head : Int) : String :=
  pyStr la ++ "_" ++ pyStr ln ++ "_" ++ toString Head ++ ".jpg"

/-- The retry loop of `GetStreetLL` (lines 168-189), by recursion over the
remaining attempts (second `Nat` argument; the first is the index of the
current attempt, used to address the oracle).  Each attempt queries the
metadata endpoint; `MetaParse` never raises, so within the `try` only the
download can raise: an `HTTPError` sleeps and retries, any other exception
returns `(None, 0)` at once, and an attempt whose metadata is absent or
whose `pano_id` is falsy simply falls through to the next attempt. -/
def getStreetAux (provider : Provider) (MyUrl MetaUrl2 SaveLoc : String) (Head : Int) :
    Nat → Nat → List (String × String) → Nat → List String → FetchResult
  | _, 0, files, sleeps, queries => ⟨none, 0, files, sleeps, queries⟩
  | attempt, Nat.succ r, files, sleeps, queries =>
    match MetaParse (provider.metaResponse MetaUrl2 attempt) with
    | some (date, pid, la, ln) =>
      if truthy pid then
        match provider.download MyUrl attempt with
        | DownloadOutcome.ok =>
          ⟨some (date, pid, la, ln, fileNameFor la ln Head), 1,
            files ++ [(SaveLoc, fileNameFor la ln Head)], sleeps, queries ++ [MetaUrl2]⟩
        | DownloadOutcome.httpError =>
          getStreetAux provider MyUrl MetaUrl2 SaveLoc Head (attempt + 1) r
            files (sleeps + 1) (queries ++ [MetaUrl2])
        | DownloadOutcome.otherError =>
          ⟨none, 0, files, sleeps, queries ++ [MetaUrl2]⟩
      else
        getStreetAux provider MyUrl MetaUrl2 SaveLoc Head (attempt + 1) r
          files sleeps (queries ++ [MetaUrl2])
    | none =>
      getStreetAux provider MyUrl MetaUrl2 SaveLoc Head (attempt + 1) r
        files sleeps (queries ++ [MetaUrl2])

/-- Embedding of `GetStreetLL(Lat, Lon, Head, SaveLoc, retries)` (lines
147-189).  The Python signature defaults `retries` to 3; the only caller in
the module, `download_images_from_country`, uses that default, which the
embedding of the driver reflects by passing 3. -/
def GetStreetLL (cfg : Config) (provider : Provider) (Lat Lon : Int) (Head : Int)
    (SaveLoc : String) (retries : Nat) : FetchResult :=
  getStreetAux provider (imageUrl cfg Lat Lon Head) (metaUrl cfg Lat Lon Head)
    SaveLoc Head 0 retries [] 0 []

/-- A shapely coordinate pair as stored in a road geometry: `(x, y)` =
(longitude, latitude); `road.xy[1][0]` is the first `y`, `road.xy[0][0]`
the first `x`. -/
abbrev Pt := Int × Int

/-- A road geometry row of the GeoDataFrame.  A (non-empty) `LineString`
carries its first vertex and the remaining vertices; a `MultiLineString`
carries its first component polyline (itself first-vertex plus rest) and
the remaining components; `other` stands for every other `geom_type`. -/
inductive Geometry where
  | lineString : Pt → List Pt → Geometry
  | multiLineString : Pt × List Pt → List (Pt × List Pt) → Geometry
  | other : Geometry

/-- The region's GeoDataFrame, as its ordered list of road geometries. -/
abbrev Gdf := List Geometry

/-- A generated sample point `(lat, lon, heading)` as appended by
`generate_ll`. -/
abbrev SamplePoint := Int × Int × Int

/-- The random row selection `gdf.sample(n=...)` as an oracle: given the
data and `n`, the selected rows (in the drawn order). -/
abbrev Sampler := Gdf → Nat → Gdf

/-- The properties every draw of `pandas.DataFrame.sample(n)` has when
`n` does not exceed the population (the only way `generate_ll` calls it):
exactly `n` rows are returned and they form a sub-multiset of the data
(selection without replacement). -/
def ValidSampler (s : Sampler) : Prop :=
  ∀ gdf n, n < gdf.length → (s gdf n).length = n ∧ (s gdf n).Subperm gdf

/-- The four cardinal sample points `point_N`, `point_E`, `point_S`,
`point_W` (lines 105-114) for one representative coordinate, in the order
they are appended. -/
def fourHeadingPoints (lat lon : Int) : List SamplePoint :=
  [(lat, lon, 2), (lat, lon, 92), (lat, lon, 182), (lat, lon, 272)]

/-- One iteration of the road loop of `generate_ll` (lines 94-114): a
`LineString` contributes four points at its first vertex, a
`MultiLineString` four points at the first vertex of its first component,
and any other geometry type is skipped (`continue`). -/
def roadPoints : Geometry → List SamplePoint
  | Geometry.lineString p _ => fourHeadingPoints p.2 p.1
  | Geometry.multiLineString l _ => fourHeadingPoints l.1.2 l.1.1
  | Geometry.other => []

/-- Embedding of `generate_ll(gdf, n2d)` (lines 75-116): `n_roads =
int(n2d / 2)` (floor, as `n2d` is a non-negative count), the rows are
`gdf.sample(n=n_roads)` when `len(gdf) > n_roads` and all of `gdf`
otherwise, and the appended points are the concatenation of `roadPoints`
over the selected rows.  `generate_ll` reads no module global; `cfg` is the
ambient global state it could access. -/
def generate_ll (cfg : Config) (sampler : Sampler) (gdf : Gdf) (n2d : Nat) :
    List SamplePoint :=
  (if n2d / 2 < gdf.length then sampler gdf (n2d / 2) else gdf).flatMap roadPoints

/-- The outcome of one country's acquisition: the final
`images_downloaded` tally, the appended `image_list` ledger entries, the
performed image writes, and (for audit of the round structure) the list of
rounds as pairs (tally at round start, `n2d` requested from the sampler). -/
structure DriverResult where
  images_downloaded : Nat
  image_list : List (Json × Json × Json × Json × String)
  files : List (String × String)
  requests : List (Nat × Nat)

/-- Processing of one completed future in the result loop of
`download_images_from_country` (lines 225-236): the returned pair is always
truthy in Python (it is a 2-element list or tuple), the flag is added to
the tally, and the metadata, when truthy, is appended to the ledger.
`GetStreetLL` is invoked with its default `retries=3`. -/
def processPoint (cfg : Config) (provider : Provider) (save_dir : String)
    (acc : Nat × List (Json × Json × Json × Json × String) × List (String × String))
    (pt : SamplePoint) :
    Nat × List (Json × Json × Json × Json × String) × List (String × String) :=
  (acc.1 + (GetStreetLL cfg provider pt.1 pt.2.1 pt.2.2 save_dir 3).flag,
   acc.2.1 ++ (match (GetStreetLL cfg provider pt.1 pt.2.1 pt.2.2 save_dir 3).metadata with
     | some m => [m]
     | none => []),
   acc.2.2 ++ (GetStreetLL cfg provider pt.1 pt.2.1 pt.2.2 save_dir 3).files)

/-- The `while images_downloaded < total_images_to_download * 4` loop of
`download_images_from_country` (lines 206-236), with explicit fuel: `none`
models the loop still running after `fuel` iterations (the Python loop has
no other exit).  Each iteration computes `n2d = total -
int(images_downloaded / 4)` (recorded in `requests`), asks the sampler,
breaks on an empty list, and otherwise folds the fetch results into the
tally, ledger and write list. -/
def driverLoop (cfg : Config) (provider : Provider) (sampler : Sampler) (gdf : Gdf)
    (total : Nat) (save_dir : String) :
    Nat → Nat → List (Json × Json × Json × Json × String) →
    List (String × String) → List (Nat × Nat) → Option DriverResult
  | 0, _, _, _, _ => none
  | Nat.succ fuel, im, ledger, files, reqs =>
    if im < 4 * total then
      let pts := generate_ll cfg sampler gdf (total - im / 4)
      if pts.isEmpty then
        some ⟨im, ledger, files, reqs ++ [(im, total - im / 4)]⟩
      else
        let step := pts.foldl (processPoint cfg provider save_dir) (im, ledger, files)
        driverLoop cfg provider sampler gdf total save_dir fuel step.1 step.2.1 step.2.2
          (reqs ++ [(im, total - im / 4)])
    else
      some ⟨im, ledger, files, reqs⟩

/-- Embedding of `download_images_from_country(country_name, total, save_dir)`
(lines 192-238) after the geometry resolution step: the caller passes the
country's GeoDataFrame (resolution itself is `load_shapefile_for_country`,
verified separately), and the loop starts from a zero tally with empty
ledger and write list. -/
def download_images_from_country (cfg : Config) (provider : Provider)
    (sampler : Sampler) (gdf : Gdf) (total : Nat) (save_dir : String)
    (fuel : Nat) : Option DriverResult :=
  driverLoop cfg provider sampler gdf total save_dir fuel 0 [] [] []

/-- The error taxonomy of geometry resolution: the country is in no region
of `regions_to_countries.json` (`ValueError` at line 72), or the region's
shapefile cannot be obtained — its path is missing from `region_shp_paths`
(`ValueError` at line 70) or `read_dataframe` raises. -/
inductive LoadError where
  | unknownCountry : LoadError
  | sourceUnavailable : LoadError

/-- The process-wide cache state: the `gdf_cache` dict (as an association
list, most recent insertion first) and the number of `read_dataframe`
invocations performed so far. -/
structure CacheState where
  gdf_cache : List (String × Gdf)
  loads : Nat

/-- Python dict lookup on an association list (first matching key). -/
def lookupAssoc {α : Type} (l : List (String × α)) (k : String) : Option α :=
  (l.find? (fun p => p.1 == k)).map (fun p => p.2)

/-- The region the country resolves to: the first entry of
`regions_to_countries_dict` whose country list contains the country, as
iterated by the `for region, countries in ...items()` loop (line 55). -/
def firstRegion (idx : List (String × List String)) (country : String) : Option String :=
  (idx.find? (fun p => p.2.contains country)).map (fun p => p.1)

/-- Embedding of `load_shapefile_for_country(country)` (lines 41-72).
`idx` is `regions_to_countries_dict`, `region_shp_paths` the path table,
and `loader` models `read_dataframe` (`none` = it raises).  The result
pairs the returned dataset (or the raised error) with the updated cache
state; the cache entry is written only after a successful load (line 67),
and a `read_dataframe` invocation is counted even when it fails. -/
def load_shapefile_for_country (idx : List (String × List String))
    (region_shp_paths : List (String × String)) (loader : String → Option Gdf)
    (country : String) (st : CacheState) : Except LoadError Gdf × CacheState :=
  match idx.find? (fun p => p.2.contains country) with
  | none => (Except.error LoadError.unknownCountry, st)
  | some rc =>
    match lookupAssoc st.gdf_cache rc.1 with
    | some gdf => (Except.ok gdf, st)
    | none =>
      match lookupAssoc region_shp_paths rc.1 with
      | some path =>
        match loader path with
        | some gdf =>
          (Except.ok gdf, ⟨(rc.1, gdf) :: st.gdf_cache, st.loads + 1⟩)
        | none =>
          (Except.error LoadError.sourceUnavailable, ⟨st.gdf_cache, st.loads + 1⟩)
      | none => (Except.error LoadError.sourceUnavailable, st)

/-! ## Concrete test data used by witnesses and counterexamples -/

/-- A metadata body with status `"OK"`, panorama id `"p"` and location
(lat 5, lng 6). -/
def okJson : Json :=
  Json.obj [("status", Json.str "OK"), ("pano_id", Json.str "p"),
    ("location", Json.obj [("lat", Json.num 5), ("lng", Json.num 6)])]

/-- A provider whose every metadata query returns `okJson` and whose every
download succeeds. -/
def okProvider : Provider := ⟨fun _ _ => some okJson, fun _ _ => DownloadOutcome.ok⟩

/-- A provider whose every metadata query fails at transport level. -/
def noneProvider : Provider := ⟨fun _ _ => none, fun _ _ => DownloadOutcome.ok⟩

/-- A provider with valid metadata whose downloads always raise
`urllib.error.HTTPError`. -/
def httpProvider : Provider :=
  ⟨fun _ _ => some okJson, fun _ _ => DownloadOutcome.httpError⟩

/-- A provider with valid metadata whose downloads always raise a
non-HTTP exception. -/
def otherProvider : Provider :=
  ⟨fun _ _ => some okJson, fun _ _ => DownloadOutcome.otherError⟩

/-- A metadata body whose validated location (lat 7, lng 8) differs from
any requested location used in the witnesses. -/
def shiftJson : Json :=
  Json.obj [("status", Json.str "OK"), ("pano_id", Json.str "p"),
    ("location", Json.obj [("lat", Json.num 7), ("lng", Json.num 8)])]

/-- A provider answering every metadata query with `shiftJson` and
succeeding on every download. -/
def shiftProvider : Provider :=
  ⟨fun _ _ => some shiftJson, fun _ _ => DownloadOutcome.ok⟩

/-- A deterministic admissible draw of `gdf.sample(n)`: the first `n`
rows. -/
def takeSampler : Sampler := fun gdf n => gdf.take n

/-- A concrete configuration record. -/
def cfg0 : Config := ⟨some "K", 0, 400, true, 5⟩

/-- A single road: a `LineString` with first vertex (x 10, y 20). -/
def road1 : Geometry := Geometry.lineString (10, 20) []

/-- Claim C9's failing response: status `"OK"`, `pano_id` present but
empty (falsy, hence not a usable panorama id), and a well-formed
location. -/
def c9cex : Json :=
  Json.obj [("status", Json.str "OK"), ("pano_id", Json.str ""),
    ("location", Json.obj [("lat", Json.num 1), ("lng", Json.num 2)])]

/-! ## The Metadata Validator (claim C9) -/

/-- The exact condition under which `MetaParse` returns a tuple: status
field present and equal to the string `"OK"`, `pano_id` field present
(with any value), and a `location` carrying both `lat` and `lng`. -/
def metaOkShape (j : Json) : Bool :=
  (match pyGet j "status" with
   | some st => isOkStatus st
   | none => false) &&
  (pyGet j "pano_id").isSome &&
  (match pyGet j "location" with
   | some loc => (pyGet loc "lat").isSome && (pyGet loc "lng").isSome
   | none => false)

/-- The tuple `MetaParse` returns in the `metaOkShape` case: the `date`
value or `None`, the `pano_id` value, and the location's `lat` and `lng`
(the `getD` defaults never fire in that case). -/
def metaValue (j : Json) : Json × Json × Json × Json :=
  ((pyGet j "date").getD Json.null,
   (pyGet j "pano_id").getD Json.null,
   (match pyGet j "location" with
    | some loc => (pyGet loc "lat").getD Json.null
    | none => Json.null),
   (match pyGet j "location" with
    | some loc => (pyGet loc "lng").getD Json.null
    | none => Json.null))

/-- Claim C9, counterexample: the claim says a response whose panorama id
is missing or invalid yields absent, but on a status-`"OK"` body whose
`pano_id` is present yet empty — a value the fetcher itself rejects as
invalid (`if pano_id:` is false) — `MetaParse` returns the tuple rather
than absent: validity of the panorama id value is not checked by the
validator. -/
theorem c9_counterexample :
    isOkStatus ((pyGet c9cex "status").getD Json.null) = true ∧
    truthy ((pyGet c9cex "pano_id").getD Json.null) = false ∧
    MetaParse (some c9cex) = some (Json.null, Json.str "", Json.num 1, Json.num 2) ∧
    MetaParse (some c9cex) ≠ none :=
  ⟨rfl, rfl, rfl, fun h => Option.noConfusion h⟩

/-- Claim C9 (amended): `MetaParse` returns the tuple (date or `None`,
pano id value, validated lat, validated lng) exactly when the response
parses, its status is the string `"OK"`, its `pano_id` field is present
(whatever its value — validity of the value is checked by the fetcher,
not the validator), and its location carries `lat` and `lng`; any other
status, any missing field, and any transport-level failure yield absent.
No exception escapes: the embedding of the validator is a total
function. -/
theorem c9_amended :
    (∀ j : Json, MetaParse (some j) =
      if metaOkShape j then some (metaValue j) else none) ∧
    MetaParse none = none := by
  refine ⟨fun j => ?_, rfl⟩
  unfold MetaParse metaOkShape metaValue
  rcases h1 : pyGet j "status" with _ | st
  · simp [h1]
  · cases hok : isOkStatus st
    · simp [h1, hok]
    · rcases h2 : pyGet j "pano_id" with _ | pid
      · simp [h1, hok, h2]
      · rcases h3 : pyGet j "location" with _ | loc
        · simp [h1, hok, h2, h3]
        · rcases h4 : pyGet loc "lat" with _ | la
          · simp [h1, hok, h2, h3, h4]
          · rcases h5 : pyGet loc "lng" with _ | ln
            · simp [h1, hok, h2, h3, h4, h5]
            · simp [h1, hok, h2, h3, h4, h5]

/-! ## Independence from the `pano` setting (claim C10) -/

/-- Claim C10: two runs differing only in the `pano` configuration value,
with identical geometry data, budgets and provider responses, produce
identical sampler output and identical fetch results (returned metadata,
flag, written files, sleeps and issued queries alike): neither
`generate_ll` nor `GetStreetLL` ever reads the `pano` global, so every
location yields the four-heading sampling regardless of the configured
mode. -/
theorem c10_thm :
    ∀ (k : Option String) (sct spc nw : Nat) (b1 b2 : Bool) (sampler : Sampler)
      (gdf : Gdf) (n2d : Nat) (provider : Provider) (Lat Lon Head : Int)
      (SaveLoc : String) (retries : Nat),
    generate_ll ⟨k, sct, spc, b1, nw⟩ sampler gdf n2d =
      generate_ll ⟨k, sct, spc, b2, nw⟩ sampler gdf n2d ∧
    GetStreetLL ⟨k, sct, spc, b1, nw⟩ provider Lat Lon Head SaveLoc retries =
      GetStreetLL ⟨k, sct, spc, b2, nw⟩ provider Lat Lon Head SaveLoc retries :=
  fun _ _ _ _ _ _ _ _ _ _ _ _ _ _ _ => ⟨rfl, rfl⟩

/-! ## Step lemmas for the retry loop of `GetStreetLL` -/

/-- Exhausted attempts return `(None, 0)` with no effect. -/
theorem getStreetAux_zero (provider : Provider) (MyUrl MetaUrl2 SaveLoc : String)
    (Head : Int) (attempt : Nat) (files : List (String × String)) (sleeps : Nat)
    (queries : List String) :
    getStreetAux provider MyUrl MetaUrl2 SaveLoc Head attempt 0 files sleeps queries =
      ⟨none, 0, files, sleeps, queries⟩ := rfl

/-- An attempt whose metadata is absent falls through to the next attempt
(no sleep, no write). -/
theorem aux_meta_none (provider : Provider) (MyUrl MetaUrl2 SaveLoc : String)
    (Head : Int) (attempt r : Nat) (files : List (String × String)) (sleeps : Nat)
    (queries : List String)
    (h : MetaParse (provider.metaResponse MetaUrl2 attempt) = none) :
    getStreetAux provider MyUrl MetaUrl2 SaveLoc Head attempt (r + 1) files sleeps queries =
      getStreetAux provider MyUrl MetaUrl2 SaveLoc Head (attempt + 1) r
        files sleeps (queries ++ [MetaUrl2]) := by
  simp only [getStreetAux]
  rw [h]

/-- An attempt whose metadata has a falsy `pano_id` falls through to the
next attempt (no sleep, no write). -/
theorem aux_pid_falsy (provider : Provider) (MyUrl MetaUrl2 SaveLoc : String)
    (Head : Int) (attempt r : Nat) (files : List (String × String)) (sleeps : Nat)
    (queries : List String) (date pid la ln : Json)
    (h : MetaParse (provider.metaResponse MetaUrl2 attempt) = some (date, pid, la, ln))
    (ht : truthy pid = false) :
    getStreetAux provider MyUrl MetaUrl2 SaveLoc Head attempt (r + 1) files sleeps queries =
      getStreetAux provider MyUrl MetaUrl2 SaveLoc Head (attempt + 1) r
        files sleeps (queries ++ [MetaUrl2]) := by
  simp only [getStreetAux]
  rw [h]
  simp [ht]

/-- A successful attempt writes exactly one file, named from the validated
coordinates and the requested heading, and returns the metadata with
flag 1. -/
theorem aux_ok (provider : Provider) (MyUrl MetaUrl2 SaveLoc : String)
    (Head : Int) (attempt r : Nat) (files : List (String × String)) (sleeps : Nat)
    (queries : List String) (date pid la ln : Json)
    (h : MetaParse (provider.metaResponse MetaUrl2 attempt) = some (date, pid, la, ln))
    (ht : truthy pid = true)
    (hd : provider.download MyUrl attempt = DownloadOutcome.ok) :
    getStreetAux provider MyUrl MetaUrl2 SaveLoc Head attempt (r + 1) files sleeps queries =
      ⟨some (date, pid, la, ln, fileNameFor la ln Head), 1,
        files ++ [(SaveLoc, fileNameFor la ln Head)], sleeps, queries ++ [MetaUrl2]⟩ := by
  simp only [getStreetAux]
  rw [h]
  simp [ht, hd]

/-- An attempt whose download raises `HTTPError` records one sleep and
retries (the next attempt reuses the same URLs, hence the same requested
point). -/
theorem aux_http (provider : Provider) (MyUrl MetaUrl2 SaveLoc : String)
    (Head : Int) (attempt r : Nat) (files : List (String × String)) (sleeps : Nat)
    (queries : List String) (date pid la ln : Json)
    (h : MetaParse (provider.metaResponse MetaUrl2 attempt) = some (date, pid, la, ln))
    (ht : truthy pid = true)
    (hd : provider.download MyUrl attempt = DownloadOutcome.httpError) :
    getStreetAux provider MyUrl MetaUrl2 SaveLoc Head attempt (r + 1) files sleeps queries =
      getStreetAux provider MyUrl MetaUrl2 SaveLoc Head (attempt + 1) r
        files (sleeps + 1) (queries ++ [MetaUrl2]) := by
  simp only [getStreetAux]
  rw [h]
  simp [ht, hd]

/-- An attempt whose download raises a non-HTTP exception returns
`(None, 0)` immediately: no retry, no sleep, no write. -/
theorem aux_other (provider : Provider) (MyUrl MetaUrl2 SaveLoc : String)
    (Head : Int) (attempt r : Nat) (files : List (String × String)) (sleeps : Nat)
    (queries : List String) (date pid la ln : Json)
    (h : MetaParse (provider.metaResponse MetaUrl2 attempt) = some (date, pid, la, ln))
    (ht : truthy pid = true)
    (hd : provider.download MyUrl attempt = DownloadOutcome.otherError) :
    getStreetAux provider MyUrl MetaUrl2 SaveLoc Head attempt (r + 1) files sleeps queries =
      ⟨none, 0, files, sleeps, queries ++ [MetaUrl2]⟩ := by
  simp only [getStreetAux]
  rw [h]
  simp [ht, hd]

/-- When every attempt's metadata is absent, the loop runs through all
remaining attempts (querying once per attempt) and returns `(None, 0)`
having written nothing and slept never. -/
theorem aux_allNone (provider : Provider) (MyUrl MetaUrl2 SaveLoc : String)
    (Head : Int)
    (h : ∀ k, MetaParse (provider.metaResponse MetaUrl2 k) = none) :
    ∀ (r attempt : Nat) (files : List (String × String)) (sleeps : Nat)
      (queries : List String),
    getStreetAux provider MyUrl MetaUrl2 SaveLoc Head attempt r files sleeps queries =
      ⟨none, 0, files, sleeps, queries ++ List.replicate r MetaUrl2⟩ := by
  intro r
  induction r with
  | zero =>
    intro attempt files sleeps queries
    simp [getStreetAux_zero]
  | succ r ih =>
    intro attempt files sleeps queries
    rw [aux_meta_none provider MyUrl MetaUrl2 SaveLoc Head attempt r files sleeps
      queries (h attempt), ih]
    simp [List.replicate_succ, List.append_assoc]

/-- Over one `GetStreetLL` loop, at most the remaining number of attempts
issue metadata queries, and every query issued beyond those already
recorded targets the loop's fixed metadata URL (the same requested
point). -/
theorem aux_queries (provider : Provider) (MyUrl MetaUrl2 SaveLoc : String)
    (Head : Int) :
    ∀ (r attempt : Nat) (files : List (String × String)) (sleeps : Nat)
      (queries : List String),
    (getStreetAux provider MyUrl MetaUrl2 SaveLoc Head attempt r files sleeps
        queries).metaQueries.length ≤ queries.length + r ∧
    ∀ q ∈ (getStreetAux provider MyUrl MetaUrl2 SaveLoc Head attempt r files sleeps
        queries).metaQueries, q ∈ queries ∨ q = MetaUrl2 := by
  intro r
  induction r with
  | zero =>
    intro attempt files sleeps queries
    exact ⟨by simp [getStreetAux_zero], fun q hq => Or.inl hq⟩
  | succ r ih =>
    intro attempt files sleeps queries
    have hstep : ∀ (files2 : List (String × String)) (sleeps2 : Nat),
        (getStreetAux provider MyUrl MetaUrl2 SaveLoc Head (attempt + 1) r files2
            sleeps2 (queries ++ [MetaUrl2])).metaQueries.length ≤
          queries.length + (r + 1) ∧
        ∀ q ∈ (getStreetAux provider MyUrl MetaUrl2 SaveLoc Head (attempt + 1) r
            files2 sleeps2 (queries ++ [MetaUrl2])).metaQueries,
          q ∈ queries ∨ q = MetaUrl2 := by
      intro files2 sleeps2
      obtain ⟨hl, hq⟩ := ih (attempt + 1) files2 sleeps2 (queries ++ [MetaUrl2])
      simp only [List.length_append, List.length_singleton] at hl
      refine ⟨by omega, fun q hmem => ?_⟩
      rcases hq q hmem with hin | heq
      · rcases List.mem_append.mp hin with hin2 | hin2
        · exact Or.inl hin2
        · exact Or.inr (List.mem_singleton.mp hin2)
      · exact Or.inr heq
    rcases hm : MetaParse (provider.metaResponse MetaUrl2 attempt) with _ | md
    · rw [aux_meta_none provider MyUrl MetaUrl2 SaveLoc Head attempt r files sleeps
        queries hm]
      exact hstep files sleeps
    · obtain ⟨date, pid, la, ln⟩ := md
      cases ht : truthy pid
      · rw [aux_pid_falsy provider MyUrl MetaUrl2 SaveLoc Head attempt r files sleeps
          queries date pid la ln hm ht]
        exact hstep files sleeps
      · cases hd : provider.download MyUrl attempt
        · rw [aux_ok provider MyUrl MetaUrl2 SaveLoc Head attempt r files sleeps
            queries date pid la ln hm ht hd]
          refine ⟨by simp, fun q hmem => ?_⟩
          rcases List.mem_append.mp hmem with hin2 | hin2
          · exact Or.inl hin2
          · exact Or.inr (List.mem_singleton.mp hin2)
        · rw [aux_http provider MyUrl MetaUrl2 SaveLoc Head attempt r files sleeps
            queries date pid la ln hm ht hd]
          exact hstep files (sleeps + 1)
        · rw [aux_other provider MyUrl MetaUrl2 SaveLoc Head attempt r files sleeps
            queries date pid la ln hm ht hd]
          refine ⟨by simp, fun q hmem => ?_⟩
          rcases List.mem_append.mp hmem with hin2 | hin2
          · exact Or.inl hin2
          · exact Or.inr (List.mem_singleton.mp hin2)

/-- Claim C5: `GetStreetLL` makes at most `retries` validate-then-download
attempts (the signature's default being 3, as the driver uses it), every
attempt re-queries the same requested point's metadata URL; an attempt
whose download raises `HTTPError` records one sleep and retries; a
non-HTTP exception during the download returns `(None, 0)` immediately
with no further attempt; and when every attempt's metadata is absent the
call returns `(None, 0)` after exhausting all attempts, having written no
file. -/
theorem c5_thm (cfg : Config) (provider : Provider) (Lat Lon Head : Int)
    (SaveLoc : String) :
    (∀ retries : Nat,
      (GetStreetLL cfg provider Lat Lon Head SaveLoc retries).metaQueries.length ≤
        retries ∧
      ∀ q ∈ (GetStreetLL cfg provider Lat Lon Head SaveLoc retries).metaQueries,
        q = metaUrl cfg Lat Lon Head) ∧
    (∀ (MyUrl MetaUrl2 SaveLoc2 : String) (attempt r : Nat)
       (files : List (String × String)) (sleeps : Nat) (queries : List String)
       (date pid la ln : Json),
      MetaParse (provider.metaResponse MetaUrl2 attempt) = some (date, pid, la, ln) →
      truthy pid = true →
      provider.download MyUrl attempt = DownloadOutcome.httpError →
      getStreetAux provider MyUrl MetaUrl2 SaveLoc2 Head attempt (r + 1) files sleeps
          queries =
        getStreetAux provider MyUrl MetaUrl2 SaveLoc2 Head (attempt + 1) r files
          (sleeps + 1) (queries ++ [MetaUrl2])) ∧
    (∀ (MyUrl MetaUrl2 SaveLoc2 : String) (attempt r : Nat)
       (files : List (String × String)) (sleeps : Nat) (queries : List String)
       (date pid la ln : Json),
      MetaParse (provider.metaResponse MetaUrl2 attempt) = some (date, pid, la, ln) →
      truthy pid = true →
      provider.download MyUrl attempt = DownloadOutcome.otherError →
      getStreetAux provider MyUrl MetaUrl2 SaveLoc2 Head attempt (r + 1) files sleeps
          queries =
        ⟨none, 0, files, sleeps, queries ++ [MetaUrl2]⟩) ∧
    ((∀ k, MetaParse (provider.metaResponse (metaUrl cfg Lat Lon Head) k) = none) →
      ∀ retries : Nat,
      GetStreetLL cfg provider Lat Lon Head SaveLoc retries =
        ⟨none, 0, [], 0, List.replicate retries (metaUrl cfg Lat Lon Head)⟩) := by
  refine ⟨fun retries => ?_, ?_, ?_, fun habs retries => ?_⟩
  · obtain ⟨hl, hq⟩ := aux_queries provider (imageUrl cfg Lat Lon Head)
      (metaUrl cfg Lat Lon Head) SaveLoc Head retries 0 [] 0 []
    refine ⟨by simpa using hl, fun q hmem => ?_⟩
    rcases hq q hmem with hin | heq
    · exact absurd hin (List.not_mem_nil q)
    · exact heq
  · intro MyUrl MetaUrl2 SaveLoc2 attempt r files sleeps queries date pid la ln
      hm ht hd
    exact aux_http provider MyUrl MetaUrl2 SaveLoc2 Head attempt r files sleeps
      queries date pid la ln hm ht hd
  · intro MyUrl MetaUrl2 SaveLoc2 attempt r files sleeps queries date pid la ln
      hm ht hd
    exact aux_other provider MyUrl MetaUrl2 SaveLoc2 Head attempt r files sleeps
      queries date pid la ln hm ht hd
  · unfold GetStreetLL
    rw [aux_allNone provider (imageUrl cfg Lat Lon Head) (metaUrl cfg Lat Lon Head)
      SaveLoc Head habs retries 0 [] 0 []]
    simp

/-- Witness for C5: the at-most-3-queries bound, the sleep-and-retry step
on an `HTTPError`, the immediate `(None, 0)` on a non-HTTP download
exception, and the `(None, 0)`-after-exhaustion outcome under an
always-absent validator, all at concrete inputs. -/
theorem c5_witness :
    ((GetStreetLL cfg0 noneProvider 1 2 2 "out" 3).metaQueries.length ≤ 3) ∧
    (getStreetAux httpProvider "u" "m" "d" 2 0 1 [] 0 [] =
      getStreetAux httpProvider "u" "m" "d" 2 1 0 [] 1 ["m"]) ∧
    (getStreetAux otherProvider "u" "m" "d" 2 0 1 [] 0 [] =
      ⟨none, 0, [], 0, ["m"]⟩) ∧
    (GetStreetLL cfg0 noneProvider 1 2 2 "out" 3 =
      ⟨none, 0, [], 0, List.replicate 3 (metaUrl cfg0 1 2 2)⟩) :=
  ⟨((c5_thm cfg0 noneProvider 1 2 2 "out").1 3).1,
   (c5_thm cfg0 httpProvider 1 2 2 "out").2.1 "u" "m" "d" 0 0 [] 0 []
     Json.null (Json.str "p") (Json.num 5) (Json.num 6) rfl rfl rfl,
   (c5_thm cfg0 otherProvider 1 2 2 "out").2.2.1 "u" "m" "d" 0 0 [] 0 []
     Json.null (Json.str "p") (Json.num 5) (Json.num 6) rfl rfl rfl,
   (c5_thm cfg0 noneProvider 1 2 2 "out").2.2.2 (fun _ => rfl) 3⟩

/-- A run of the retry loop that returns flag 1 owes its success to some
attempt: that attempt's metadata query returned validated coordinates with
a truthy panorama id, the download succeeded, and the returned metadata
and the single performed write use the filename built from the validated
coordinates and the loop's requested heading. -/
theorem aux_success (provider : Provider) (MyUrl MetaUrl2 SaveLoc : String)
    (Head : Int) :
    ∀ (r attempt : Nat) (files : List (String × String)) (sleeps : Nat)
      (queries : List String),
    (getStreetAux provider MyUrl MetaUrl2 SaveLoc Head attempt r files sleeps
        queries).flag = 1 →
    ∃ k date pid la ln,
      MetaParse (provider.metaResponse MetaUrl2 k) = some (date, pid, la, ln) ∧
      truthy pid = true ∧
      provider.download MyUrl k = DownloadOutcome.ok ∧
      (getStreetAux provider MyUrl MetaUrl2 SaveLoc Head attempt r files sleeps
          queries).metadata = some (date, pid, la, ln, fileNameFor la ln Head) ∧
      (getStreetAux provider MyUrl MetaUrl2 SaveLoc Head attempt r files sleeps
          queries).files = files ++ [(SaveLoc, fileNameFor la ln Head)] := by
  intro r
  induction r with
  | zero =>
    intro attempt files sleeps queries hflag
    rw [getStreetAux_zero] at hflag
    exact absurd hflag (by simp)
  | succ r ih =>
    intro attempt files sleeps queries hflag
    rcases hm : MetaParse (provider.metaResponse MetaUrl2 attempt) with _ | md
    · rw [aux_meta_none provider MyUrl MetaUrl2 SaveLoc Head attempt r files sleeps
        queries hm] at hflag ⊢
      exact ih (attempt + 1) files sleeps (queries ++ [MetaUrl2]) hflag
    · obtain ⟨date, pid, la, ln⟩ := md
      cases ht : truthy pid
      · rw [aux_pid_falsy provider MyUrl MetaUrl2 SaveLoc Head attempt r files sleeps
          queries date pid la ln hm ht] at hflag ⊢
        exact ih (attempt + 1) files sleeps (queries ++ [MetaUrl2]) hflag
      · cases hd : provider.download MyUrl attempt
        · rw [aux_ok provider MyUrl MetaUrl2 SaveLoc Head attempt r files sleeps
            queries date pid la ln hm ht hd]
          exact ⟨attempt, date, pid, la, ln, hm, ht, hd, rfl, rfl⟩
        · rw [aux_http provider MyUrl MetaUrl2 SaveLoc Head attempt r files sleeps
            queries date pid la ln hm ht hd] at hflag ⊢
          exact ih (attempt + 1) files (sleeps + 1) (queries ++ [MetaUrl2]) hflag
        · rw [aux_other provider MyUrl MetaUrl2 SaveLoc Head attempt r files sleeps
            queries date pid la ln hm ht hd] at hflag
          exact absurd hflag (by simp)

/-- Claim C6: a successful `GetStreetLL` call performed exactly one write
into the output directory, whose filename is
`{validated lat}_{validated lon}_{requested heading}.jpg` with the
coordinates taken from the validator's response of the successful attempt
(not from the requested point), and the returned metadata carries those
same validated coordinates and that filename. -/
theorem c6_thm (cfg : Config) (provider : Provider) (Lat Lon Head : Int)
    (SaveLoc : String) (retries : Nat)
    (h : (GetStreetLL cfg provider Lat Lon Head SaveLoc retries).flag = 1) :
    ∃ k date pid vlat vlon,
      MetaParse (provider.metaResponse (metaUrl cfg Lat Lon Head) k) =
        some (date, pid, vlat, vlon) ∧
      truthy pid = true ∧
      provider.download (imageUrl cfg Lat Lon Head) k = DownloadOutcome.ok ∧
      (GetStreetLL cfg provider Lat Lon Head SaveLoc retries).metadata =
        some (date, pid, vlat, vlon, fileNameFor vlat vlon Head) ∧
      (GetStreetLL cfg provider Lat Lon Head SaveLoc retries).files =
        [(SaveLoc, fileNameFor vlat vlon Head)] ∧
      fileNameFor vlat vlon Head =
        pyStr vlat ++ "_" ++ pyStr vlon ++ "_" ++ toString Head ++ ".jpg" := by
  obtain ⟨k, date, pid, vlat, vlon, hm, ht, hd, hmeta, hfiles⟩ :=
    aux_success provider (imageUrl cfg Lat Lon Head) (metaUrl cfg Lat Lon Head)
      SaveLoc Head retries 0 [] 0 [] h
  exact ⟨k, date, pid, vlat, vlon, hm, ht, hd, hmeta, by simpa using hfiles, rfl⟩

/-- Witness for C6: a provider whose validated location (lat 7, lng 8)
differs from the requested point (lat 1, lon 2); the success metadata and
the single written file use the validated coordinates. -/
theorem c6_witness :
    ∃ k date pid vlat vlon,
      MetaParse (shiftProvider.metaResponse (metaUrl cfg0 1 2 2) k) =
        some (date, pid, vlat, vlon) ∧
      truthy pid = true ∧
      shiftProvider.download (imageUrl cfg0 1 2 2) k = DownloadOutcome.ok ∧
      (GetStreetLL cfg0 shiftProvider 1 2 2 "out" 3).metadata =
        some (date, pid, vlat, vlon, fileNameFor vlat vlon 2) ∧
      (GetStreetLL cfg0 shiftProvider 1 2 2 "out" 3).files =
        [("out", fileNameFor vlat vlon 2)] ∧
      fileNameFor vlat vlon 2 =
        pyStr vlat ++ "_" ++ pyStr vlon ++ "_" ++ toString (2 : Int) ++ ".jpg" :=
  c6_thm cfg0 shiftProvider 1 2 2 "out" 3 rfl

/-! ## The Point Sampler (claims C2 and C4) -/

/-- Whether a geometry row is one of the two polyline shapes `generate_ll`
keeps (anything else is skipped by the `continue` branch). -/
def isPolyline : Geometry → Bool
  | Geometry.other => false
  | _ => true

/-- Taking the first rows is an admissible draw of `gdf.sample(n)`. -/
theorem validSampler_take : ValidSampler takeSampler := by
  intro gdf n h
  exact ⟨by simp [takeSampler, List.length_take, Nat.min_eq_left (Nat.le_of_lt h)],
    (List.take_sublist n gdf).subperm⟩

/-- A kept polyline contributes exactly four points. -/
theorem roadPoints_length_poly (g : Geometry) (h : isPolyline g = true) :
    (roadPoints g).length = 4 := by
  cases g
  · rfl
  · rfl
  · exact absurd h (by simp [isPolyline])

/-- Each row contributes at most four points. -/
theorem roadPoints_length_le (g : Geometry) : (roadPoints g).length ≤ 4 := by
  cases g
  · exact Nat.le_refl 4
  · exact Nat.le_refl 4
  · exact Nat.zero_le 4

/-- A list of polylines yields exactly four points per row. -/
theorem flatMap_roadPoints_length (roads : Gdf)
    (h : ∀ g ∈ roads, isPolyline g = true) :
    (roads.flatMap roadPoints).length = 4 * roads.length := by
  induction roads with
  | nil => rfl
  | cons g roads ih =>
    rw [List.flatMap_cons, List.length_append,
      roadPoints_length_poly g (h g (List.mem_cons_self g roads)),
      ih (fun g2 hg2 => h g2 (List.mem_cons_of_mem g hg2))]
    simp [List.length_cons]
    ring

/-- Any list of rows yields at most four points per row. -/
theorem flatMap_roadPoints_length_le (roads : Gdf) :
    (roads.flatMap roadPoints).length ≤ 4 * roads.length := by
  induction roads with
  | nil => exact Nat.le_refl 0
  | cons g roads ih =>
    rw [List.flatMap_cons, List.length_append]
    have := roadPoints_length_le g
    simp only [List.length_cons]
    omega

/-- The number of generated points is always a multiple of four. -/
theorem flatMap_roadPoints_mod (roads : Gdf) :
    (roads.flatMap roadPoints).length % 4 = 0 := by
  induction roads with
  | nil => rfl
  | cons g roads ih =>
    rw [List.flatMap_cons, List.length_append]
    have h4 : (roadPoints g).length = 0 ∨ (roadPoints g).length = 4 := by
      cases g
      · exact Or.inr rfl
      · exact Or.inr rfl
      · exact Or.inl rfl
    rcases h4 with h | h <;> rw [h] <;> omega

/-- Claim C2: whenever the point budget's half floors to zero (budget 0 or
1) and the dataset is non-empty, the sampler returns the empty sequence
even though usable roads remain (the code then draws `gdf.sample(n=0)`);
consequently the acquisition driver can stop in the Exhausted state with
the quota unmet as soon as the remaining per-round budget drops to 1, as
the concrete always-succeeding run exhibits: it ends at tally 36 < 40 and
its final round requested exactly 1 point. -/
theorem c2_thm :
    (∀ (cfg : Config) (sampler : Sampler) (gdf : Gdf) (n2d : Nat),
      ValidSampler sampler → gdf ≠ [] → n2d / 2 = 0 →
      generate_ll cfg sampler gdf n2d = []) ∧
    ((download_images_from_country cfg0 okProvider takeSampler [road1] 10 "out"
        11).map (fun r => (r.images_downloaded, r.requests.getLast?)) =
      some (36, some (36, 1)) ∧
      (36 : Nat) < 4 * 10 ∧
      generate_ll cfg0 takeSampler [road1] 1 = []) := by
  constructor
  · intro cfg sampler gdf n2d hs hne h0
    unfold generate_ll
    rw [h0, if_pos (List.length_pos.mpr hne),
      List.length_eq_zero.mp (hs gdf 0 (List.length_pos.mpr hne)).1]
    rfl
  · exact ⟨rfl, by norm_num, rfl⟩

/-- Witness for C2: a concrete non-empty dataset and budget 1 on which the
sampler, fed an admissible draw, returns the empty sequence. -/
theorem c2_witness : generate_ll cfg0 takeSampler [Geometry.other, road1] 1 = [] :=
  c2_thm.1 cfg0 takeSampler [Geometry.other, road1] 1 validSampler_take
    (by simp) rfl

/-- Claim C4: `generate_ll` selects `floor(n2d/2)` rows through the random
draw exactly when the dataset has more rows than that (a draw without
replacement of that many rows), and otherwise uses every row exactly once;
a kept `LineString` contributes its first vertex, a kept
`MultiLineString` the first vertex of its first component, any other shape
contributes nothing; each kept row emits exactly four points at that
coordinate with headings 2, 92, 182, 272 in that order; and the resulting
length is a multiple of 4 and at most `2 * floor(n2d/2) * 4`. -/
theorem c4_thm (cfg : Config) (sampler : Sampler) (gdf : Gdf) (n2d : Nat)
    (hs : ValidSampler sampler) :
    ((n2d / 2 < gdf.length →
        generate_ll cfg sampler gdf n2d = (sampler gdf (n2d / 2)).flatMap roadPoints ∧
        (sampler gdf (n2d / 2)).length = n2d / 2 ∧
        (sampler gdf (n2d / 2)).Subperm gdf) ∧
      (gdf.length ≤ n2d / 2 →
        generate_ll cfg sampler gdf n2d = gdf.flatMap roadPoints)) ∧
    (∀ (p : Pt) (rest : List Pt),
      roadPoints (Geometry.lineString p rest) =
        [(p.2, p.1, 2), (p.2, p.1, 92), (p.2, p.1, 182), (p.2, p.1, 272)]) ∧
    (∀ (l : Pt × List Pt) (rest : List (Pt × List Pt)),
      roadPoints (Geometry.multiLineString l rest) =
        [(l.1.2, l.1.1, 2), (l.1.2, l.1.1, 92), (l.1.2, l.1.1, 182),
          (l.1.2, l.1.1, 272)]) ∧
    roadPoints Geometry.other = [] ∧
    (generate_ll cfg sampler gdf n2d).length % 4 = 0 ∧
    (generate_ll cfg sampler gdf n2d).length ≤ 2 * (n2d / 2) * 4 := by
  refine ⟨⟨fun hlt => ?_, fun hge => ?_⟩, fun p rest => rfl, fun l rest => rfl, rfl,
    ?_, ?_⟩
  · exact ⟨by unfold generate_ll; rw [if_pos hlt], (hs gdf (n2d / 2) hlt).1,
      (hs gdf (n2d / 2) hlt).2⟩
  · unfold generate_ll
    rw [if_neg (by omega)]
  · unfold generate_ll
    by_cases hlt : n2d / 2 < gdf.length
    · rw [if_pos hlt]
      exact flatMap_roadPoints_mod (sampler gdf (n2d / 2))
    · rw [if_neg hlt]
      exact flatMap_roadPoints_mod gdf
  · unfold generate_ll
    by_cases hlt : n2d / 2 < gdf.length
    · rw [if_pos hlt]
      have h1 := flatMap_roadPoints_length_le (sampler gdf (n2d / 2))
      have h2 := (hs gdf (n2d / 2) hlt).1
      omega
    · rw [if_neg hlt]
      have h1 := flatMap_roadPoints_length_le gdf
      omega

/-- Witness for C4: the structural facts at a concrete dataset of one
`LineString` and one other-shaped row with budget 5 (so two rows are
drawn): all rows are used, the kept polyline yields its four headed
points, the skipped row none, and the length bounds hold. -/
theorem c4_witness :
    ((5 / 2 < ([road1, Geometry.other] : Gdf).length →
        generate_ll cfg0 takeSampler [road1, Geometry.other] 5 =
          (takeSampler [road1, Geometry.other] (5 / 2)).flatMap roadPoints ∧
        (takeSampler [road1, Geometry.other] (5 / 2)).length = 5 / 2 ∧
        (takeSampler [road1, Geometry.other] (5 / 2)).Subperm
          [road1, Geometry.other]) ∧
      (([road1, Geometry.other] : Gdf).length ≤ 5 / 2 →
        generate_ll cfg0 takeSampler [road1, Geometry.other] 5 =
          ([road1, Geometry.other] : Gdf).flatMap roadPoints)) ∧
    (∀ (p : Pt) (rest : List Pt),
      roadPoints (Geometry.lineString p rest) =
        [(p.2, p.1, 2), (p.2, p.1, 92), (p.2, p.1, 182), (p.2, p.1, 272)]) ∧
    (∀ (l : Pt × List Pt) (rest : List (Pt × List Pt)),
      roadPoints (Geometry.multiLineString l rest) =
        [(l.1.2, l.1.1, 2), (l.1.2, l.1.1, 92), (l.1.2, l.1.1, 182),
          (l.1.2, l.1.1, 272)]) ∧
    roadPoints Geometry.other = [] ∧
    (generate_ll cfg0 takeSampler [road1, Geometry.other] 5).length % 4 = 0 ∧
    (generate_ll cfg0 takeSampler [road1, Geometry.other] 5).length ≤
      2 * (5 / 2) * 4 :=
  c4_thm cfg0 takeSampler [road1, Geometry.other] 5 validSampler_take

/-! ## The Acquisition Driver (claims C1 and C3) -/

/-- One unfolding of the driver loop: check the quota guard, compute the
round's budget, break on an empty sample, otherwise fold the round's
fetches and continue. -/
theorem driverLoop_succ (cfg : Config) (provider : Provider) (sampler : Sampler)
    (gdf : Gdf) (total : Nat) (save : String) (fuel im : Nat)
    (ledger : List (Json × Json × Json × Json × String))
    (files : List (String × String)) (reqs : List (Nat × Nat)) :
    driverLoop cfg provider sampler gdf total save (fuel + 1) im ledger files reqs =
      if im < 4 * total then
        if (generate_ll cfg sampler gdf (total - im / 4)).isEmpty then
          some ⟨im, ledger, files, reqs ++ [(im, total - im / 4)]⟩
        else
          driverLoop cfg provider sampler gdf total save fuel
            ((generate_ll cfg sampler gdf (total - im / 4)).foldl
              (processPoint cfg provider save) (im, ledger, files)).1
            ((generate_ll cfg sampler gdf (total - im / 4)).foldl
              (processPoint cfg provider save) (im, ledger, files)).2.1
            ((generate_ll cfg sampler gdf (total - im / 4)).foldl
              (processPoint cfg provider save) (im, ledger, files)).2.2
            (reqs ++ [(im, total - im / 4)])
      else some ⟨im, ledger, files, reqs⟩ := rfl

/-- Loop invariant for the round log and the stop conditions: if the loop
returns, every logged round was started under the quota guard and
requested exactly `total - floor(tally/4)` points, and the final tally
either meets the quota or the sampler returned the empty sequence at the
final tally's budget. -/
theorem driverLoop_rounds (cfg : Config) (provider : Provider) (sampler : Sampler)
    (gdf : Gdf) (total : Nat) (save : String) :
    ∀ (fuel im : Nat) (ledger : List (Json × Json × Json × Json × String))
      (files : List (String × String)) (reqs : List (Nat × Nat))
      (res : DriverResult),
    driverLoop cfg provider sampler gdf total save fuel im ledger files reqs =
      some res →
    (∀ p ∈ reqs, p.1 < 4 * total ∧ p.2 = total - p.1 / 4) →
    (∀ p ∈ res.requests, p.1 < 4 * total ∧ p.2 = total - p.1 / 4) ∧
    (4 * total ≤ res.images_downloaded ∨
      (res.images_downloaded < 4 * total ∧
        generate_ll cfg sampler gdf (total - res.images_downloaded / 4) = [])) := by
  intro fuel
  induction fuel with
  | zero =>
    intro im ledger files reqs res h hreqs
    exact absurd h (by simp [driverLoop])
  | succ fuel ih =>
    intro im ledger files reqs res h hreqs
    rw [driverLoop_succ] at h
    by_cases him : im < 4 * total
    · rw [if_pos him] at h
      by_cases hemp : (generate_ll cfg sampler gdf (total - im / 4)).isEmpty
      · rw [if_pos hemp] at h
        obtain rfl := Option.some.inj h
        refine ⟨fun p hp => ?_, Or.inr ⟨him, List.isEmpty_iff.mp hemp⟩⟩
        rcases List.mem_append.mp hp with hin | hin
        · exact hreqs p hin
        · rw [List.mem_singleton] at hin
          subst hin
          exact ⟨him, rfl⟩
      · rw [if_neg hemp] at h
        refine ih _ _ _ _ _ h (fun p hp => ?_)
        rcases List.mem_append.mp hp with hin | hin
        · exact hreqs p hin
        · rw [List.mem_singleton] at hin
          subst hin
          exact ⟨him, rfl⟩
    · rw [if_neg him] at h
      obtain rfl := Option.some.inj h
      exact ⟨hreqs, Or.inl (show 4 * total ≤ im by omega)⟩

/-- Claim C3: whenever the acquisition driver terminates, every round it
ran was entered while the running success total was below `4 * total` and
requested exactly `total - floor(successesSoFar/4)` points from the
sampler, and the run stopped exactly because the final total reached
`4 * total` or because the sampler returned an empty sequence at the final
budget — the empty-sampler stop being a normal `some` outcome of the loop,
not an error. -/
theorem c3_thm (cfg : Config) (provider : Provider) (sampler : Sampler)
    (gdf : Gdf) (total : Nat) (save : String) (fuel : Nat) (res : DriverResult)
    (h : download_images_from_country cfg provider sampler gdf total save fuel =
      some res) :
    (∀ p ∈ res.requests, p.1 < 4 * total ∧ p.2 = total - p.1 / 4) ∧
    (4 * total ≤ res.images_downloaded ∨
      (res.images_downloaded < 4 * total ∧
        generate_ll cfg sampler gdf (total - res.images_downloaded / 4) = [])) :=
  driverLoop_rounds cfg provider sampler gdf total save fuel 0 [] [] [] res h
    (by simp)

/-- Witness for C3: the driver on an empty dataset with target 1 stops in
one round; that round was requested under the guard with budget 1 and the
sampler's answer at the final budget is empty. -/
theorem c3_witness :
    (∀ p ∈ [((0 : Nat), (1 : Nat))], p.1 < 4 * 1 ∧ p.2 = 1 - p.1 / 4) ∧
    (4 * 1 ≤ (0 : Nat) ∨
      ((0 : Nat) < 4 * 1 ∧ generate_ll cfg0 takeSampler [] (1 - 0 / 4) = [])) := by
  have h := c3_thm cfg0 okProvider takeSampler [] 1 "out" 1 ⟨0, [], [], [(0, 1)]⟩ rfl
  exact h

/-- Claim C1, counterexample: with target count 10, a provider that always
succeeds and a non-empty geometry set (one `LineString` road, drawn by an
admissible sampler), the driver terminates with a total of 36 successes
and 36 file writes, its final round having requested budget 1 — not the 40
the claim asserts. -/
theorem c1_counterexample :
    (download_images_from_country cfg0 okProvider takeSampler [road1] 10 "out"
        11).map (fun r => (r.images_downloaded, r.files.length, r.requests.getLast?)) =
      some (36, 36, some (36, 1)) ∧
    (36 : Nat) ≠ 40 :=
  ⟨rfl, by norm_num⟩

/-- The provider of claim C1: every metadata query yields validated
coordinates with a truthy panorama id, and every download succeeds. -/
def AlwaysSucceeds (provider : Provider) : Prop :=
  (∀ u k, ∃ date pid la ln,
    MetaParse (provider.metaResponse u k) = some (date, pid, la, ln) ∧
    truthy pid = true) ∧
  (∀ u k, provider.download u k = DownloadOutcome.ok)

/-- Under an always-succeeding provider, each dispatched fetch (with the
driver's `retries=3`) succeeds on its first attempt: flag 1 and exactly
one write. -/
theorem fetch_always (cfg : Config) (provider : Provider)
    (hp : AlwaysSucceeds provider) (La Lo He : Int) (S : String) :
    (GetStreetLL cfg provider La Lo He S 3).flag = 1 ∧
    (GetStreetLL cfg provider La Lo He S 3).files.length = 1 := by
  obtain ⟨date, pid, la, ln, hm, ht⟩ := hp.1 (metaUrl cfg La Lo He) 0
  have hd := hp.2 (imageUrl cfg La Lo He) 0
  have key : GetStreetLL cfg provider La Lo He S 3 =
      ⟨some (date, pid, la, ln, fileNameFor la ln He), 1,
        [] ++ [(S, fileNameFor la ln He)], 0, [] ++ [metaUrl cfg La Lo He]⟩ :=
    aux_ok provider (imageUrl cfg La Lo He) (metaUrl cfg La Lo He) S He 0 2 [] 0 []
      date pid la ln hm ht hd
  rw [key]
  exact ⟨rfl, rfl⟩

/-- Under an always-succeeding provider, a round over `pts` adds exactly
`pts.length` to the tally and performs exactly `pts.length` writes. -/
theorem foldl_always (cfg : Config) (provider : Provider) (save : String)
    (hp : AlwaysSucceeds provider) :
    ∀ (pts : List SamplePoint)
      (p : Nat × List (Json × Json × Json × Json × String) × List (String × String)),
    (pts.foldl (processPoint cfg provider save) p).1 = p.1 + pts.length ∧
    (pts.foldl (processPoint cfg provider save) p).2.2.length =
      p.2.2.length + pts.length := by
  intro pts
  induction pts with
  | nil =>
    intro p
    exact ⟨by simp, by simp⟩
  | cons pt pts ih =>
    intro p
    rw [List.foldl_cons]
    obtain ⟨hf, hl⟩ := fetch_always cfg provider hp pt.1 pt.2.1 pt.2.2 save
    have hstep1 : (processPoint cfg provider save p pt).1 = p.1 + 1 := by
      simp [processPoint, hf]
    have hstep2 : (processPoint cfg provider save p pt).2.2.length =
        p.2.2.length + 1 := by
      simp [processPoint, hl]
    obtain ⟨h1, h2⟩ := ih (processPoint cfg provider save p pt)
    rw [h1, h2, hstep1, hstep2]
    simp only [List.length_cons]
    omega

/-- Under an admissible draw and an all-polyline non-empty dataset with a
positive road budget, the sampler returns four points per drawn road, for
between one and `floor(n2d/2)` roads. -/
theorem generate_ll_always (cfg : Config) (sampler : Sampler) (gdf : Gdf)
    (n2d : Nat) (hs : ValidSampler sampler) (hne : gdf ≠ [])
    (hall : ∀ g ∈ gdf, isPolyline g = true) (hnr : 1 ≤ n2d / 2) :
    ∃ k, 1 ≤ k ∧ k ≤ n2d / 2 ∧
      (generate_ll cfg sampler gdf n2d).length = 4 * k := by
  by_cases hc : n2d / 2 < gdf.length
  · refine ⟨n2d / 2, hnr, Nat.le_refl _, ?_⟩
    unfold generate_ll
    rw [if_pos hc]
    rw [flatMap_roadPoints_length (sampler gdf (n2d / 2))
      (fun g hg => hall g ((hs gdf (n2d / 2) hc).2.subset hg)),
      (hs gdf (n2d / 2) hc).1]
  · refine ⟨gdf.length, List.length_pos.mpr hne, by omega, ?_⟩
    unfold generate_ll
    rw [if_neg hc]
    exact flatMap_roadPoints_length gdf hall

/-- The driver loop of claim C1, for target 10 and tally `4 * s`
locations-worth of successes: for any `s ≤ 9` and enough fuel, the loop
terminates with final tally 36, having performed `36 - 4 * s` further
writes — the quota 40 is never reached, because once `s = 9` the remaining
budget is 1 and the sampler returns the empty sequence. -/
theorem c1_driver_loop (cfg : Config) (provider : Provider) (sampler : Sampler)
    (gdf : Gdf) (save : String) (hp : AlwaysSucceeds provider)
    (hs : ValidSampler sampler) (hne : gdf ≠ [])
    (hall : ∀ g ∈ gdf, isPolyline g = true) :
    ∀ (fuel s : Nat) (ledger : List (Json × Json × Json × Json × String))
      (files : List (String × String)) (reqs : List (Nat × Nat)),
    s ≤ 9 → 10 - s ≤ fuel →
    ∃ res, driverLoop cfg provider sampler gdf 10 save fuel (4 * s) ledger files
        reqs = some res ∧
      res.images_downloaded = 36 ∧
      res.files.length = files.length + (36 - 4 * s) := by
  intro fuel
  induction fuel with
  | zero =>
    intro s ledger files reqs hs9 hfuel
    omega
  | succ fuel ih =>
    intro s ledger files reqs hs9 hfuel
    have hdiv : 4 * s / 4 = s := Nat.mul_div_cancel_left s (by norm_num)
    rw [driverLoop_succ, if_pos (show 4 * s < 4 * 10 by omega), hdiv]
    by_cases h9 : s = 9
    · subst h9
      have hne0 : 0 < gdf.length := List.length_pos.mpr hne
      have hgen : generate_ll cfg sampler gdf (10 - 9) = [] := by
        unfold generate_ll
        rw [show (10 - 9 : Nat) / 2 = 0 from rfl, if_pos hne0,
          List.length_eq_zero.mp (hs gdf 0 hne0).1]
        rfl
      rw [hgen]
      refine ⟨⟨4 * 9, ledger, files, reqs ++ [(4 * 9, 10 - 9)]⟩, by simp, by norm_num,
        by simp⟩
    · obtain ⟨k, hk1, hk2, hklen⟩ := generate_ll_always cfg sampler gdf (10 - s)
        hs hne hall (by omega)
      have hpts : ¬(generate_ll cfg sampler gdf (10 - s)).isEmpty = true := by
        intro hemp
        rw [List.isEmpty_iff.mp hemp] at hklen
        simp at hklen
        omega
      rw [if_neg hpts]
      obtain ⟨hfold1, hfold2⟩ := foldl_always cfg provider save hp
        (generate_ll cfg sampler gdf (10 - s)) (4 * s, ledger, files)
      have harg : ((generate_ll cfg sampler gdf (10 - s)).foldl
          (processPoint cfg provider save) (4 * s, ledger, files)).1 =
          4 * (s + k) := by
        rw [hfold1, hklen]
        ring
      rw [harg]
      obtain ⟨res, hres, h36, hfl⟩ := ih (s + k)
        ((generate_ll cfg sampler gdf (10 - s)).foldl
          (processPoint cfg provider save) (4 * s, ledger, files)).2.1
        ((generate_ll cfg sampler gdf (10 - s)).foldl
          (processPoint cfg provider save) (4 * s, ledger, files)).2.2
        (reqs ++ [(4 * s, 10 - s)]) (by omega) (by omega)
      refine ⟨res, hres, h36, ?_⟩
      rw [hfl, hfold2, hklen]
      show files.length + 4 * k + (36 - 4 * (s + k)) = files.length + (36 - 4 * s)
      omega

/-- Claim C1 (amended): for target count 10 and a provider that always
succeeds, the driver on any non-empty geometry set of polyline roads
(under any admissible random draw) terminates — fuel 11 suffices — with a
total success count of exactly 36 and exactly 36 image writes, not 40:
once 9 locations have succeeded the remaining budget is 1, the sampler
returns the empty sequence, and the driver stops in the Exhausted state
with the quota unmet. -/
theorem c1_amended (cfg : Config) (provider : Provider) (sampler : Sampler)
    (gdf : Gdf) (save : String) (hp : AlwaysSucceeds provider)
    (hs : ValidSampler sampler) (hne : gdf ≠ [])
    (hall : ∀ g ∈ gdf, isPolyline g = true) :
    ∃ res, download_images_from_country cfg provider sampler gdf 10 save 11 =
        some res ∧
      res.images_downloaded = 36 ∧ res.files.length = 36 := by
  obtain ⟨res, hres, h36, hfl⟩ := c1_driver_loop cfg provider sampler gdf save
    hp hs hne hall 11 0 [] [] [] (by omega) (by omega)
  refine ⟨res, ?_, h36, by simpa using hfl⟩
  simpa [download_images_from_country] using hres

/-- Witness for C1: the amended run at the concrete one-road dataset,
always-succeeding provider and first-rows draw. -/
theorem c1_witness :
    ∃ res, download_images_from_country cfg0 okProvider takeSampler [road1] 10
        "out" 11 = some res ∧
      res.images_downloaded = 36 ∧ res.files.length = 36 :=
  c1_amended cfg0 okProvider takeSampler [road1] "out"
    ⟨fun _ _ => ⟨Json.null, Json.str "p", Json.num 5, Json.num 6, rfl, rfl⟩,
      fun _ _ => rfl⟩
    validSampler_take (by simp)
    (fun g hg => by
      rw [List.mem_singleton] at hg
      subst hg
      rfl)

/-! ## The Geometry Cache (claims C7 and C8) -/

/-- Claim C7: a successful resolution for a country caches the returned
dataset under its region (performing at most one load), and any later call
for any country mapped to the same region returns that cached dataset with
the state — cache and load count alike — unchanged: the cache is keyed by
region, and each region's source is loaded at most once per process. -/
theorem c7_thm (idx : List (String × List String)) (paths : List (String × String))
    (loader : String → Option Gdf) (countryA countryB r : String)
    (st st2 : CacheState) (g : Gdf)
    (h1 : firstRegion idx countryA = some r)
    (h2 : firstRegion idx countryB = some r)
    (h3 : load_shapefile_for_country idx paths loader countryA st =
      (Except.ok g, st2)) :
    lookupAssoc st2.gdf_cache r = some g ∧
    load_shapefile_for_country idx paths loader countryB st2 = (Except.ok g, st2) ∧
    st2.loads ≤ st.loads + 1 := by
  obtain ⟨rc1, hfind1, hr1⟩ := Option.map_eq_some'.mp h1
  obtain ⟨rc2, hfind2, hr2⟩ := Option.map_eq_some'.mp h2
  unfold load_shapefile_for_country at h3 ⊢
  simp only [hfind1, hr1] at h3
  simp only [hfind2, hr2]
  rcases hc : lookupAssoc st.gdf_cache r with _ | cached
  · simp only [hc] at h3
    rcases hp : lookupAssoc paths r with _ | path
    · simp only [hp] at h3
      exact absurd (congrArg (fun q => q.1) h3) (by simp)
    · simp only [hp] at h3
      rcases hl : loader path with _ | gdf
      · simp only [hl] at h3
        exact absurd (congrArg (fun q => q.1) h3) (by simp)
      · simp only [hl] at h3
        rw [Prod.mk.injEq] at h3
        obtain ⟨hg, hst⟩ := h3
        obtain rfl := Except.ok.inj hg
        subst hst
        have hcache : lookupAssoc ((r, gdf) :: st.gdf_cache) r = some gdf := by
          unfold lookupAssoc
          rw [List.find?_cons_of_pos _ (by simp)]
          rfl
        refine ⟨hcache, ?_, Nat.le_refl _⟩
        simp only [hcache]
  · simp only [hc] at h3
    rw [Prod.mk.injEq] at h3
    obtain ⟨hg, hst⟩ := h3
    obtain rfl := Except.ok.inj hg
    obtain rfl := hst
    refine ⟨hc, ?_, by omega⟩
    simp only [hc]

/-- Witness for C7: a two-country region whose dataset is loaded once for
the first country; the second country's resolution is served from the
cache with the state unchanged. -/
theorem c7_witness :
    lookupAssoc (CacheState.mk [("R", [road1])] 1).gdf_cache "R" = some [road1] ∧
    load_shapefile_for_country [("R", ["A", "B"])] [("R", "p")]
        (fun _ => some [road1]) "B" ⟨[("R", [road1])], 1⟩ =
      (Except.ok [road1], ⟨[("R", [road1])], 1⟩) ∧
    (CacheState.mk [("R", [road1])] 1).loads ≤ (CacheState.mk [] 0).loads + 1 :=
  c7_thm [("R", ["A", "B"])] [("R", "p")] (fun _ => some [road1]) "A" "B" "R"
    ⟨[], 0⟩ ⟨[("R", [road1])], 1⟩ [road1] rfl rfl rfl

/-- Claim C8: resolution fails with the unknown-country error exactly when
the country is in no region of the index; for an indexed country whose
region is not yet cached, a missing path-table entry or a failing load
yields the source-unavailable error; and every failing resolution leaves
the cache unchanged. -/
theorem c8_thm (idx : List (String × List String)) (paths : List (String × String))
    (loader : String → Option Gdf) (country : String) (st : CacheState) :
    ((load_shapefile_for_country idx paths loader country st).1 =
        Except.error LoadError.unknownCountry ↔ firstRegion idx country = none) ∧
    (∀ r, firstRegion idx country = some r →
      lookupAssoc st.gdf_cache r = none →
      (lookupAssoc paths r = none ∨
        ∃ p, lookupAssoc paths r = some p ∧ loader p = none) →
      (load_shapefile_for_country idx paths loader country st).1 =
        Except.error LoadError.sourceUnavailable) ∧
    (∀ e st2, load_shapefile_for_country idx paths loader country st =
        (Except.error e, st2) → st2.gdf_cache = st.gdf_cache) := by
  refine ⟨?_, ?_, ?_⟩
  · rcases hfind : idx.find? (fun p => p.2.contains country) with _ | rc
    · refine iff_of_true ?_ ?_
      · unfold load_shapefile_for_country
        simp only [hfind]
      · unfold firstRegion
        rw [hfind]
        rfl
    · refine iff_of_false ?_ ?_
      · unfold load_shapefile_for_country
        simp only [hfind]
        rcases hc : lookupAssoc st.gdf_cache rc.1 with _ | cached
        · simp only [hc]
          rcases hp : lookupAssoc paths rc.1 with _ | path
          · simp only [hp]
            simp
          · simp only [hp]
            rcases hl : loader path with _ | gdf
            · simp only [hl]
              simp
            · simp only [hl]
              simp
        · simp only [hc]
          simp
      · unfold firstRegion
        rw [hfind]
        simp
  · intro r hr hcache hbad
    obtain ⟨rc1, hfind, hr1⟩ := Option.map_eq_some'.mp hr
    unfold load_shapefile_for_country
    simp only [hfind, hr1, hcache]
    rcases hbad with hp | ⟨p, hp, hl⟩
    · simp only [hp]
    · simp only [hp, hl]
  · intro e st2 h
    unfold load_shapefile_for_country at h
    rcases hfind : idx.find? (fun p => p.2.contains country) with _ | rc
    · simp only [hfind] at h
      rw [Prod.mk.injEq] at h
      rw [← h.2]
    · simp only [hfind] at h
      rcases hc : lookupAssoc st.gdf_cache rc.1 with _ | cached
      · simp only [hc] at h
        rcases hp : lookupAssoc paths rc.1 with _ | path
        · simp only [hp] at h
          rw [Prod.mk.injEq] at h
          rw [← h.2]
        · simp only [hp] at h
          rcases hl : loader path with _ | gdf
          · simp only [hl] at h
            rw [Prod.mk.injEq] at h
            rw [← h.2]
          · simp only [hl] at h
            rw [Prod.mk.injEq] at h
            exact absurd h.1 (by simp)
      · simp only [hc] at h
        rw [Prod.mk.injEq] at h
        exact absurd h.1 (by simp)

/-- Witness for C8: a country in no region fails as unknown, and an
indexed country whose region's load fails yields the source-unavailable
error with the cache left unchanged. -/
theorem c8_witness :
    (load_shapefile_for_country [("R", ["A", "B"])] [("R", "p")] (fun _ => none)
        "Z" ⟨[], 0⟩).1 = Except.error LoadError.unknownCountry ∧
    (load_shapefile_for_country [("R", ["A", "B"])] [("R", "p")] (fun _ => none)
        "A" ⟨[], 0⟩).1 = Except.error LoadError.sourceUnavailable ∧
    (CacheState.mk ([] : List (String × Gdf)) 1).gdf_cache =
      (CacheState.mk ([] : List (String × Gdf)) 0).gdf_cache :=
  ⟨(c8_thm [("R", ["A", "B"])] [("R", "p")] (fun _ => none) "Z" ⟨[], 0⟩).1.mpr rfl,
   (c8_thm [("R", ["A", "B"])] [("R", "p")] (fun _ => none) "A" ⟨[], 0⟩).2.1 "R"
     rfl rfl (Or.inr ⟨"p", rfl, rfl⟩),
   (c8_thm [("R", ["A", "B"])] [("R", "p")] (fun _ => none) "A" ⟨[], 0⟩).2.2
     LoadError.sourceUnavailable ⟨[], 1⟩ rfl⟩

end StreetView
